import Mathlib

/-
Verification of the jaffle-shop HTTP API routing layer (src/app/routers.py)
against its design specification. The Python module is shallowly embedded:
SQL execution against the embedded database is modelled by list operations
with the semantics the spec ascribes to the query executor, Python dicts are
modelled by association lists in insertion order, and Python exceptions are
modelled by an `Except` error type.
-/

set_option autoImplicit false

namespace JaffleShop

/-- Scalar (or, after order enrichment, nested) value stored in a row.
`table` holds a list of row mappings, used only for the `items` field that
order enrichment attaches to an order record. -/
inductive Value where
  | str (s : String)
  | int (n : Int)
  | null
  | table (rows : List (List (String × Value)))

/-- A row mapping, as produced by `dict(zip(column_names, row))` in the
source: an association list from column name to value, in column order. -/
abbrev Row := List (String × Value)

/-- Test whether a value is the string `s`; models the SQL comparison
`col = 's'` of a VARCHAR column against a string literal. -/
def Value.isStr (v : Value) (s : String) : Bool :=
  match v with
  | .str t => t == s
  | _ => false

/-- Python `str()` applied to a scalar value, as used by f-string
interpolation of `order['id']` into SQL text. -/
def Value.pyStr (v : Value) : String :=
  match v with
  | .str s => s
  | .int n => toString n
  | .null => "None"
  | .table _ => "<table>"

/-- A database table: the ordered column names (the cursor description) and
the raw rows, each a list of values aligned with the columns. -/
structure Table where
  columns : List String
  rows : List (List Value)

/-- Python `dict(zip(column_names, row))`: pair each column name with the
corresponding value, truncating at the shorter list, as `zip` does. -/
def pyDictZip (column_names : List String) (row : List Value) : Row :=
  column_names.zip row

/-- Python `d[k]` on a row mapping, totallised: every call site in the
source reads a key produced by `SELECT *`, which is always present, so the
`KeyError` path is never reachable and is collapsed to `null`. -/
def pyGetItem (r : Row) (k : String) : Value :=
  (r.lookup k).getD Value.null

/-- Python dict assignment `d[k] = v` on a dict modelled as an association
list with distinct keys: if the key is present its value is updated in
place (insertion order kept), otherwise the pair is appended at the end. -/
def pyDictSet {α β : Type} [BEq α] (d : List (α × β)) (k : α) (v : β) :
    List (α × β) :=
  match d with
  | [] => [(k, v)]
  | p :: rest => if p.1 == k then (k, v) :: rest else p :: pyDictSet rest k v

/-- Execution of `SELECT * FROM t WHERE <col> = '<target>'`: the raw rows of
`t` whose value in column `col` is the string `target`. -/
def Table.selectWhereEq (t : Table) (col target : String) : List (List Value) :=
  t.rows.filter (fun r =>
    match (t.columns.zip r).lookup col with
    | some v => v.isStr target
    | none => false)

/-- Row mappings of a whole table, as `_get_list_response` would return them
for `SELECT * FROM t`. -/
def Table.selectRows (t : Table) : List Row :=
  t.rows.map (fun r => pyDictZip t.columns r)

/-- Errors a request handler can surface. `typeError` models a Python
`TypeError` escaping to the framework (an HTTP 500); `notFound` models the
spec's `NotFound` (HTTP 404); `queryError` models the spec's `QueryError`. -/
inductive PyError where
  | typeError
  | notFound
  | queryError
deriving DecidableEq

/-- Shallow embedding of `_get_single_response` (src/app/routers.py:71-77):
`cursor.fetchone()` yields the first row of the result set, or Python `None`
when the result set is empty; `dict(zip(column_names, None))` then raises
`TypeError`, because `None` is not iterable. -/
def get_single_response (column_names : List String) (resultRows : List (List Value)) :
    Except PyError Row :=
  match resultRows with
  | [] => .error .typeError
  | r :: _ => .ok (pyDictZip column_names r)

/-- Shallow embedding of `get_customer` (src/app/routers.py:126-132):
single-record lookup `SELECT * FROM customers WHERE id = '<customer_id>'`. -/
def get_customer (customers : Table) (customer_id : String) : Except PyError Row :=
  get_single_response customers.columns (customers.selectWhereEq "id" customer_id)

/-- Shallow embedding of `get_product` (src/app/routers.py:264-266):
single-record lookup `SELECT * FROM products WHERE sku = '<sku>'`. -/
def get_product (products : Table) (sku : String) : Except PyError Row :=
  get_single_response products.columns (products.selectWhereEq "sku" sku)

/-- Shallow embedding of the query of `_enrich_orders`
(src/app/routers.py:145-147): the row mappings of the items whose
`order_id` column equals the interpolated order id. -/
def itemsFor (items : Table) (idStr : String) : List Row :=
  (items.selectRows).filter (fun r =>
    match r.lookup "order_id" with
    | some v => v.isStr idStr
    | none => false)

/-- Shallow embedding of `_enrich_orders` (src/app/routers.py:140-148): for
each order record, assign under key `items` the list of item row mappings
whose `order_id` matches the order's `id`, and return the same list. -/
def enrich_orders (items : Table) (orders : List Row) : List Row :=
  orders.map (fun o =>
    pyDictSet o "items" (Value.table (itemsFor items ((pyGetItem o "id").pyStr))))

/-- UTF-8 byte sequence of a character, each byte as a `Nat` below 256. -/
def utf8Bytes (c : Char) : List Nat :=
  let n := c.toNat
  if n < 128 then [n]
  else if n < 2048 then [192 + n / 64, 128 + n % 64]
  else if n < 65536 then [224 + n / 4096, 128 + (n / 64) % 64, 128 + n % 64]
  else [240 + n / 262144, 128 + (n / 4096) % 64, 128 + (n / 64) % 64, 128 + n % 64]

/-- Uppercase hexadecimal digit for a value below 16. -/
def hexDigit (n : Nat) : Char :=
  (['0', '1', '2', '3', '4', '5', '6', '7', '8', '9',
    'A', 'B', 'C', 'D', 'E', 'F']).getD n '0'

/-- Percent-encoding of one character with the semantics of Python's
`urllib.parse.quote_plus`: ASCII alphanumerics and `_.-~` are kept, a space
becomes `+`, every other character is percent-encoded byte by byte. -/
def quotePlusChar (c : Char) : String :=
  if c.isAlphanum && c.toNat < 128 then String.singleton c
  else if c == '_' || c == '.' || c == '-' || c == '~' then String.singleton c
  else if c == ' ' then "+"
  else String.join ((utf8Bytes c).map (fun b =>
    String.mk ['%', hexDigit (b / 16), hexDigit (b % 16)]))

/-- Percent-encoding of a whole string, `quote_plus` applied per character. -/
def quotePlus (s : String) : String :=
  String.join (s.data.map quotePlusChar)

/-- Shallow embedding of `urllib.parse.urlencode` on a string-valued dict:
percent-encode each key and value, join each pair with `=` and the pairs
with `&`, in insertion order. -/
def urlencode (params : List (String × String)) : String :=
  String.intercalate "&" (params.map (fun p => quotePlus p.1 ++ "=" ++ quotePlus p.2))

/-- Modelled from the spec: the versioned API path prefix. `app/const.py` is
not under src/ (only src/app/routers.py is); the spec gives the prefix as
the versioned path prefix `/api/v1` under which every route is mounted. -/
def API_V1_PREFIX : String := "/api/v1"

/-- The part of an HTTP request visible to the pagination engine: the query
parameters, as `dict(request.query_params)` yields them — an association
list with distinct keys in insertion order. -/
structure Request where
  query_params : List (String × String)

/-- Result of a paged endpoint: the JSON body (a list of row mappings) and
the optional `Link` response header; `none` means the header is absent. -/
structure PagedResult where
  body : List Row
  linkHeader : Option String

/-- Shallow embedding of `_get_paged_response` (src/app/routers.py:33-68).
The WHERE-clause fragment is modelled by the row predicate `whereClause`
(the same fragment, hence the same predicate, governs the `COUNT(*)` query
and the data query, exactly as the same string is interpolated into both);
the ORDER-BY fragment is modelled by `sortBy` reordering the filtered rows
(every call site in the source leaves `sort_by` empty, i.e. `sortBy = id`);
`hasResponse` is the truthiness of the `response` argument, and the data
query `SELECT * ... LIMIT page_size OFFSET offset` is drop-then-take on the
sorted filtered rows. Page numbers are 1-based (`page ≥ 1`) per the spec;
the source leaves `page < 1` and `page_size ≤ 0` to the database engine. -/
def get_paged_response (tableRows : List Row) (request : Request)
    (table_name : String) (page : Nat) (hasResponse : Bool)
    (whereClause : Row → Bool) (sortBy : List Row → List Row)
    (page_size : Nat) : PagedResult :=
  let offset := (page - 1) * page_size
  let last_item := offset + page_size
  let filtered := tableRows.filter whereClause
  let count := filtered.length
  let url := API_V1_PREFIX ++ "/" ++ table_name
  let linkHeader : Option String :=
    if last_item < count ∧ hasResponse = true then
      some ("<" ++ url ++ "?" ++
        urlencode (pyDictSet request.query_params "page" (toString (page + 1))) ++
        ">; rel=\"next\"")
    else none
  { body := ((sortBy filtered).drop offset).take page_size
    linkHeader := linkHeader }

/-- Python string slice `s[n:]`: drop the first `n` characters. -/
def pySlice (s : String) (n : Nat) : String :=
  String.mk (s.data.drop n)

/-- Python truthiness of an optional string parameter (`str = None`
default): `None` and the empty string are falsy. -/
def strTruthy (s : Option String) : Bool :=
  match s with
  | none => false
  | some t => t ≠ ""

/-- Shallow embedding of the WHERE-clause construction of `get_orders`
(src/app/routers.py:171-177): append one ` AND ordered_at::DATE ...`
fragment per supplied bound, then, when anything was appended, strip the
first five characters (the leading ` AND `) and put `WHERE ` in front. -/
def ordersWhereClause (start_date end_date : Option String) : String :=
  let where_clause := ""
  let where_clause :=
    if strTruthy start_date then
      where_clause ++ " AND ordered_at::DATE >= '" ++ start_date.getD "" ++ "'"
    else where_clause
  let where_clause :=
    if strTruthy end_date then
      where_clause ++ " AND ordered_at::DATE <= '" ++ end_date.getD "" ++ "'"
    else where_clause
  if where_clause ≠ "" then "WHERE " ++ pySlice where_clause 5
  else where_clause

/-- The whole backing database: one table per monitored resource. -/
structure Database where
  customers : Table
  orders : Table
  items : Table
  products : Table
  stores : Table
  supplies : Table

/-- The `selected_tables` list of `row_counts` (src/app/routers.py:87). -/
def selected_tables : List String :=
  ["customers", "orders", "items", "products", "stores", "supplies"]

/-- The table of the database a monitored table name refers to. -/
def Database.tableOf (db : Database) (name : String) : Table :=
  if name = "customers" then db.customers
  else if name = "orders" then db.orders
  else if name = "items" then db.items
  else if name = "products" then db.products
  else if name = "stores" then db.stores
  else db.supplies

/-- Shallow embedding of `row_counts` (src/app/routers.py:85-95): each
subquery `SELECT '<t>' as table_name, COUNT(*) as row_count FROM <t>`
evaluates to exactly one row, and `UNION ALL` concatenates the subquery
results in order; `_get_list_response` then turns each row into a mapping
with the aliased column names. -/
def row_counts (db : Database) : List Row :=
  selected_tables.map (fun t =>
    [("table_name", Value.str t),
     ("row_count", Value.int ((db.tableOf t).rows.length))])

/-- Sample table rows used to instantiate the paged-endpoint theorems. -/
def sampleRows3 : List Row :=
  [[("id", Value.str "a")], [("id", Value.str "b")], [("id", Value.str "c")]]

/-- Sample table rows for a table with exactly two rows. -/
def sampleRows2 : List Row :=
  [[("id", Value.str "a")], [("id", Value.str "b")]]

/-- Sample items table: one item, belonging to order `o1`. -/
def sampleItems : Table :=
  ⟨["id", "order_id", "sku"], [[Value.str "i1", Value.str "o1", Value.str "p1"]]⟩

/-- Sample order rows: `o1` has one item in `sampleItems`, `o2` has none. -/
def sampleOrders : List Row :=
  [[("id", Value.str "o1")], [("id", Value.str "o2")]]

/-! Association-list lemmas shared by the theorems below. -/

theorem lookup_append_of_none {α β : Type} [BEq α] (l₁ l₂ : List (α × β)) (k : α)
    (h : l₁.lookup k = none) : (l₁ ++ l₂).lookup k = l₂.lookup k := by
  induction l₁ with
  | nil => simp
  | cons p rest ih =>
    obtain ⟨pk, pv⟩ := p
    cases hpk : (k == pk) with
    | true => simp [List.lookup, hpk] at h
    | false =>
      simp only [List.lookup, hpk] at h
      simp only [List.cons_append, List.lookup, hpk]
      exact ih h

theorem lookup_append_of_some {α β : Type} [BEq α] (l₁ l₂ : List (α × β)) (k : α)
    (w : β) (h : l₁.lookup k = some w) : (l₁ ++ l₂).lookup k = some w := by
  induction l₁ with
  | nil => simp [List.lookup] at h
  | cons p rest ih =>
    obtain ⟨pk, pv⟩ := p
    cases hpk : (k == pk) with
    | true =>
      simp only [List.lookup, hpk] at h
      simp only [List.cons_append, List.lookup, hpk]
      exact h
    | false =>
      simp only [List.lookup, hpk] at h
      simp only [List.cons_append, List.lookup, hpk]
      exact ih h

theorem pyDictSet_eq_append {α β : Type} [BEq α] [LawfulBEq α]
    (d : List (α × β)) (k : α) (v : β) (h : d.lookup k = none) :
    pyDictSet d k v = d ++ [(k, v)] := by
  induction d with
  | nil => rfl
  | cons p rest ih =>
    obtain ⟨pk, pv⟩ := p
    cases hpk : (k == pk) with
    | true => simp [List.lookup, hpk] at h
    | false =>
      simp only [List.lookup, hpk] at h
      have hpk' : (pk == k) = false :=
        beq_eq_false_iff_ne.mpr (Ne.symm (beq_eq_false_iff_ne.mp hpk))
      simp only [pyDictSet, hpk', Bool.false_eq_true, if_false, List.cons_append]
      rw [ih h]

theorem lookup_pyDictSet_self {α β : Type} [BEq α] [LawfulBEq α]
    (d : List (α × β)) (k : α) (v : β) :
    (pyDictSet d k v).lookup k = some v := by
  induction d with
  | nil => simp [pyDictSet, List.lookup]
  | cons p rest ih =>
    obtain ⟨pk, pv⟩ := p
    cases hpk : (pk == k) with
    | true =>
      simp only [pyDictSet, hpk, if_true, List.lookup, beq_self_eq_true]
    | false =>
      have hk : (k == pk) = false :=
        beq_eq_false_iff_ne.mpr (Ne.symm (beq_eq_false_iff_ne.mp hpk))
      simp only [pyDictSet, hpk, Bool.false_eq_true, if_false, List.lookup, hk]
      exact ih

theorem lookup_pyDictSet_ne {α β : Type} [BEq α] [LawfulBEq α]
    (d : List (α × β)) (k k' : α) (v : β) (hne : k' ≠ k) :
    (pyDictSet d k v).lookup k' = d.lookup k' := by
  have hk'k : (k' == k) = false := beq_eq_false_iff_ne.mpr hne
  induction d with
  | nil => simp [pyDictSet, List.lookup, hk'k]
  | cons p rest ih =>
    obtain ⟨pk, pv⟩ := p
    cases hpk : (pk == k) with
    | true =>
      have hkpk : (k' == pk) = false := by
        have : pk = k := beq_iff_eq.mp hpk
        rw [this]; exact hk'k
      simp only [pyDictSet, hpk, if_true, List.lookup, hk'k, hkpk]
    | false =>
      cases hk'pk : (k' == pk) with
      | true =>
        simp only [pyDictSet, hpk, Bool.false_eq_true, if_false, List.lookup, hk'pk]
      | false =>
        simp only [pyDictSet, hpk, Bool.false_eq_true, if_false, List.lookup, hk'pk]
        exact ih

/-! String lemmas used for the WHERE-clause construction. -/

theorem string_eq_of_data (a b : String) (h : a.data = b.data) : a = b := by
  cases a; cases b; exact congrArg String.mk h

theorem string_append_ne_empty_right (a b : String) (h : b ≠ "") : a ++ b ≠ "" := by
  intro hab
  apply h
  have hdata := congrArg String.data hab
  rw [String.data_append] at hdata
  have hb : b.data = [] := (List.append_eq_nil.mp hdata).2
  cases b
  rw [show ("" : String) = String.mk [] from rfl]
  exact congrArg String.mk hb

/-- C1: the spec claims a single-record lookup matching zero rows fails
with `NotFound` (HTTP 404). The code instead calls
`dict(zip(column_names, cursor.fetchone()))` where `fetchone()` is `None`,
raising `TypeError` (HTTP 500). Evaluated here at a concrete failing input:
a customers table with one row `id = 'c1'`, looked up with id `missing`. -/
theorem single_lookup_zero_rows_type_error :
    get_customer ⟨["id", "name"], [[Value.str "c1", Value.str "Alice"]]⟩ "missing"
        = Except.error PyError.typeError
    ∧ get_customer ⟨["id", "name"], [[Value.str "c1", Value.str "Alice"]]⟩ "missing"
        ≠ Except.error PyError.notFound := by
  constructor
  · rfl
  · intro h
    have h' : Except.error (ε := PyError) (α := Row) PyError.typeError
        = Except.error PyError.notFound := h
    injection h' with h2
    cases h2

/-- C10: when the result set of a single-record query has one or more rows,
single mode returns the column-name-to-value mapping of the first row only;
any additional rows are ignored and never cause an error. -/
theorem single_mode_first_row (column_names : List String) (r : List Value)
    (rest : List (List Value)) :
    get_single_response column_names (r :: rest)
      = Except.ok (pyDictZip column_names r) := rfl

/-- C2: for a paged response (with a response object present, as at every
list endpoint), the `Link` header is present iff
`offset + page_size < total_count`, where `offset = (page - 1) * page_size`
and `total_count` is the `COUNT(*)` of the table under the request's WHERE
clause; when no next page exists the header is absent (`none`), never
present with an empty value. -/
theorem paged_link_header_iff (tableRows : List Row) (request : Request)
    (table_name : String) (page : Nat) (whereClause : Row → Bool)
    (sortBy : List Row → List Row) (page_size : Nat) :
    ((get_paged_response tableRows request table_name page true whereClause
        sortBy page_size).linkHeader.isSome = true ↔
      (page - 1) * page_size + page_size < (tableRows.filter whereClause).length)
    ∧ (¬ (page - 1) * page_size + page_size < (tableRows.filter whereClause).length →
      (get_paged_response tableRows request table_name page true whereClause
        sortBy page_size).linkHeader = none) := by
  constructor
  · by_cases h : (page - 1) * page_size + page_size
        < (tableRows.filter whereClause).length
    · simp [get_paged_response, h]
    · simp [get_paged_response, h]
  · intro h
    simp [get_paged_response, h]

/-- C4: WHERE-clause construction for the orders list endpoint: both date
bounds supplied (as nonempty strings, the truthy case of the source's
`if start_date:` tests) yield the two inclusive conditions on `ordered_at`
joined by ` AND ` in one WHERE clause; exactly one bound supplied yields
only that condition; neither supplied yields the empty string. -/
theorem orders_where_clause_cases (s e : String) (hs : s ≠ "") (he : e ≠ "") :
    ordersWhereClause (some s) (some e) =
        "WHERE ordered_at::DATE >= '" ++ s ++ "' AND ordered_at::DATE <= '" ++ e ++ "'"
    ∧ ordersWhereClause (some s) none = "WHERE ordered_at::DATE >= '" ++ s ++ "'"
    ∧ ordersWhereClause none (some e) = "WHERE ordered_at::DATE <= '" ++ e ++ "'"
    ∧ ordersWhereClause none none = "" := by
  have hst : strTruthy (some s) = true := by simp [strTruthy, hs]
  have het : strTruthy (some e) = true := by simp [strTruthy, he]
  have hen : strTruthy none = false := rfl
  have hmk : ∀ l : List Char, (String.mk l).data = l := fun l => rfl
  have h0 : ("" : String).data = ([] : List Char) := rfl
  refine ⟨?_, ?_, ?_, rfl⟩
  · simp only [ordersWhereClause, hst, het, if_true, Option.getD_some]
    rw [if_pos (string_append_ne_empty_right _ _ (by decide))]
    apply string_eq_of_data
    simp only [String.data_append, pySlice, hmk, h0, List.nil_append, List.append_assoc]
    rw [List.drop_append_of_le_length (by decide)]
    have hd : (" AND ordered_at::DATE >= '").data.drop 5
        = ("ordered_at::DATE >= '").data := rfl
    rw [hd]
    have hA : ("WHERE ordered_at::DATE >= '").data
        = "WHERE ".data ++ ("ordered_at::DATE >= '").data := rfl
    have hB : ("' AND ordered_at::DATE <= '").data
        = ("'").data ++ (" AND ordered_at::DATE <= '").data := rfl
    simp only [hA, hB, List.append_assoc, List.cons_append, List.nil_append]
  · simp only [ordersWhereClause, hst, hen, if_true, Bool.false_eq_true,
      if_false, Option.getD_some]
    rw [if_pos (string_append_ne_empty_right _ _ (by decide))]
    apply string_eq_of_data
    simp only [String.data_append, pySlice, hmk, h0, List.nil_append, List.append_assoc]
    rw [List.drop_append_of_le_length (by decide)]
    have hd : (" AND ordered_at::DATE >= '").data.drop 5
        = ("ordered_at::DATE >= '").data := rfl
    rw [hd]
    have hA : ("WHERE ordered_at::DATE >= '").data
        = "WHERE ".data ++ ("ordered_at::DATE >= '").data := rfl
    simp only [hA, List.append_assoc, List.cons_append, List.nil_append]
  · simp only [ordersWhereClause, het, hen, if_true, Bool.false_eq_true,
      if_false, Option.getD_some]
    rw [if_pos (string_append_ne_empty_right _ _ (by decide))]
    apply string_eq_of_data
    simp only [String.data_append, pySlice, hmk, h0, List.nil_append, List.append_assoc]
    rw [List.drop_append_of_le_length (by decide)]
    have hd : (" AND ordered_at::DATE <= '").data.drop 5
        = ("ordered_at::DATE <= '").data := rfl
    rw [hd]
    have hA : ("WHERE ordered_at::DATE <= '").data
        = "WHERE ".data ++ ("ordered_at::DATE <= '").data := rfl
    simp only [hA, List.append_assoc, List.cons_append, List.nil_append]

/-- Witness for C4 at concrete date strings. -/
theorem orders_where_clause_cases_witness :
    ("2023-01-01" : String) ≠ "" ∧ ("2023-01-31" : String) ≠ ""
    ∧ (ordersWhereClause (some "2023-01-01") (some "2023-01-31") =
        "WHERE ordered_at::DATE >= '" ++ "2023-01-01" ++ "' AND ordered_at::DATE <= '"
          ++ "2023-01-31" ++ "'"
      ∧ ordersWhereClause (some "2023-01-01") none =
        "WHERE ordered_at::DATE >= '" ++ "2023-01-01" ++ "'"
      ∧ ordersWhereClause none (some "2023-01-31") =
        "WHERE ordered_at::DATE <= '" ++ "2023-01-31" ++ "'"
      ∧ ordersWhereClause none none = "") :=
  ⟨by decide, by decide,
    orders_where_clause_cases "2023-01-01" "2023-01-31" (by decide) (by decide)⟩

/-- C3: order enrichment of a list of order records with no preexisting
`items` field returns a list of the same length, in the same order, where
each element gains exactly one new field `items` appended at the end,
holding the (possibly empty) list of item rows whose `order_id` equals that
order's id; the `items` key is always present (`some`), with value
`Value.table []` for an order with zero matching items, never absent. -/
theorem enrich_orders_spec (items : Table) (orders : List Row)
    (hfresh : orders.all (fun o => (o.lookup "items").isNone) = true) :
    enrich_orders items orders
      = orders.map (fun o =>
          o ++ [("items", Value.table (itemsFor items ((pyGetItem o "id").pyStr)))])
    ∧ (enrich_orders items orders).length = orders.length
    ∧ (∀ o ∈ orders,
        (pyDictSet o "items"
          (Value.table (itemsFor items ((pyGetItem o "id").pyStr)))).lookup "items"
          = some (Value.table (itemsFor items ((pyGetItem o "id").pyStr)))) := by
  have hmap : enrich_orders items orders
      = orders.map (fun o =>
          o ++ [("items", Value.table (itemsFor items ((pyGetItem o "id").pyStr)))]) := by
    simp only [enrich_orders]
    apply List.map_congr_left
    intro o ho
    have hnone : o.lookup "items" = none :=
      Option.isNone_iff_eq_none.mp (List.all_eq_true.mp hfresh o ho)
    exact pyDictSet_eq_append _ _ _ hnone
  exact ⟨hmap, by simp [enrich_orders], fun o _ => lookup_pyDictSet_self _ _ _⟩

/-- Witness for C3: two orders, one with one matching item and one with
zero matching items. -/
theorem enrich_orders_spec_witness :
    (sampleOrders.all (fun o => (o.lookup "items").isNone) = true)
    ∧ (enrich_orders sampleItems sampleOrders
        = sampleOrders.map (fun o =>
            o ++ [("items", Value.table (itemsFor sampleItems ((pyGetItem o "id").pyStr)))])
      ∧ (enrich_orders sampleItems sampleOrders).length = sampleOrders.length
      ∧ (∀ o ∈ sampleOrders,
          (pyDictSet o "items"
            (Value.table (itemsFor sampleItems ((pyGetItem o "id").pyStr)))).lookup "items"
            = some (Value.table (itemsFor sampleItems ((pyGetItem o "id").pyStr))))) :=
  ⟨rfl, enrich_orders_spec sampleItems sampleOrders rfl⟩

/-- C5: for every list endpoint (modelled by the shared pagination engine),
1-based page number, and positive page size, the body of the paged response
has at most `page_size` rows, because the data query takes at most
`page_size` rows after dropping `offset = (page - 1) * page_size`. -/
theorem paged_body_at_most_page_size (tableRows : List Row) (request : Request)
    (table_name : String) (page : Nat) (hasResponse : Bool)
    (whereClause : Row → Bool) (sortBy : List Row → List Row) (page_size : Nat)
    (hpage : 1 ≤ page) (hps : 1 ≤ page_size) :
    (get_paged_response tableRows request table_name page hasResponse whereClause
        sortBy page_size).body.length ≤ page_size := by
  simp only [get_paged_response]
  exact List.length_take_le _ _

/-- Witness for C5: page 2 of size 1 over a three-row table. -/
theorem paged_body_at_most_page_size_witness :
    1 ≤ 2 ∧ 1 ≤ (1 : Nat)
    ∧ (get_paged_response sampleRows3 ⟨[]⟩ "customers" 2 true (fun _ => true)
        id 1).body.length ≤ 1 :=
  ⟨by decide, by decide,
    paged_body_at_most_page_size sampleRows3 ⟨[]⟩ "customers" 2 true
      (fun _ => true) id 1 (by decide) (by decide)⟩

/-- C6: when a next page exists (with the response object present), the
`Link` header is exactly one value pointing at the list endpoint's resource
path with the original query parameters percent-encoded, the `page`
parameter set to `page + 1`, every other parameter preserved, and relation
`next`. -/
theorem paged_link_next_shape (tableRows : List Row) (request : Request)
    (table_name : String) (page : Nat) (whereClause : Row → Bool)
    (sortBy : List Row → List Row) (page_size : Nat)
    (hnext : (page - 1) * page_size + page_size
      < (tableRows.filter whereClause).length) :
    (get_paged_response tableRows request table_name page true whereClause
        sortBy page_size).linkHeader
      = some ("<" ++ API_V1_PREFIX ++ "/" ++ table_name ++ "?" ++
          urlencode (pyDictSet request.query_params "page" (toString (page + 1))) ++
          ">; rel=\"next\"")
    ∧ (pyDictSet request.query_params "page" (toString (page + 1))).lookup "page"
        = some (toString (page + 1))
    ∧ (∀ k, k ≠ "page" →
        (pyDictSet request.query_params "page" (toString (page + 1))).lookup k
          = request.query_params.lookup k) := by
  refine ⟨?_, lookup_pyDictSet_self _ _ _, fun k hk => lookup_pyDictSet_ne _ _ _ _ hk⟩
  simp only [get_paged_response]
  rw [if_pos ⟨hnext, trivial⟩]
  rfl

/-- Witness for C6: page 1 of size 1 over a three-row table with one
original query parameter. -/
theorem paged_link_next_shape_witness :
    (1 - 1) * 1 + 1 < (sampleRows3.filter (fun _ => true)).length
    ∧ ((get_paged_response sampleRows3 ⟨[("page_size", "1")]⟩ "customers" 1 true
          (fun _ => true) id 1).linkHeader
        = some ("<" ++ API_V1_PREFIX ++ "/" ++ "customers" ++ "?" ++
            urlencode (pyDictSet [("page_size", "1")] "page" (toString (1 + 1))) ++
            ">; rel=\"next\"")
      ∧ (pyDictSet [("page_size", "1")] "page" (toString (1 + 1))).lookup "page"
          = some (toString (1 + 1))
      ∧ (∀ k, k ≠ "page" →
          (pyDictSet ([("page_size", "1")] : List (String × String)) "page"
            (toString (1 + 1))).lookup k
            = ([("page_size", "1")] : List (String × String)).lookup k)) :=
  ⟨by decide,
    paged_link_next_shape sampleRows3 ⟨[("page_size", "1")]⟩ "customers" 1
      (fun _ => true) id 1 (by decide)⟩

/-- C7: requesting a page strictly beyond the last page (the filtered row
count is at most `offset = (page - 1) * page_size`) returns an empty body
and sets no `Link` header, for any positive page size and any
length-preserving ORDER BY. -/
theorem paged_beyond_last_page (tableRows : List Row) (request : Request)
    (table_name : String) (page : Nat) (whereClause : Row → Bool)
    (sortBy : List Row → List Row) (page_size : Nat)
    (hps : 1 ≤ page_size)
    (hsort : ∀ l : List Row, (sortBy l).length = l.length)
    (hbeyond : (tableRows.filter whereClause).length ≤ (page - 1) * page_size) :
    (get_paged_response tableRows request table_name page true whereClause
        sortBy page_size).body = []
    ∧ (get_paged_response tableRows request table_name page true whereClause
        sortBy page_size).linkHeader = none := by
  constructor
  · simp only [get_paged_response]
    rw [List.drop_eq_nil_of_le, List.take_nil]
    rw [hsort]
    exact hbeyond
  · simp only [get_paged_response]
    rw [if_neg]
    intro hc
    exact absurd hc.1 (Nat.not_lt.mpr (le_trans hbeyond (Nat.le_add_right _ _)))

/-- Witness for C7: page 2 of size 3 over a two-row table. -/
theorem paged_beyond_last_page_witness :
    1 ≤ 3 ∧ (∀ l : List Row, (id l).length = l.length)
    ∧ (sampleRows2.filter (fun _ => true)).length ≤ (2 - 1) * 3
    ∧ ((get_paged_response sampleRows2 ⟨[]⟩ "customers" 2 true (fun _ => true)
          id 3).body = []
      ∧ (get_paged_response sampleRows2 ⟨[]⟩ "customers" 2 true (fun _ => true)
          id 3).linkHeader = none) :=
  ⟨by decide, fun l => rfl, by decide,
    paged_beyond_last_page sampleRows2 ⟨[]⟩ "customers" 2 (fun _ => true) id 3
      (by decide) (fun l => rfl) (by decide)⟩

/-- C8: the row-counts endpoint returns exactly one row per monitored table
(six in all), each carrying the table's name under `table_name` and, under
`row_count`, the row count of that table — the `COUNT(*)` of the table. -/
theorem row_counts_per_table (db : Database) :
    (row_counts db).length = 6
    ∧ ∀ t ∈ selected_tables,
        ((row_counts db).filter (fun r =>
          match r.lookup "table_name" with
          | some v => v.isStr t
          | none => false))
          = [[("table_name", Value.str t),
              ("row_count", Value.int ((db.tableOf t).rows.length))]] := by
  refine ⟨rfl, ?_⟩
  intro t ht
  simp only [selected_tables] at ht
  fin_cases ht <;> rfl

/-- C9: when the original request carried no `page` query parameter (the
handler's `page` defaulted to 1) and a next page exists, the emitted link's
query string contains an explicit `page` parameter equal to 2, appended to
the original parameters. -/
theorem paged_link_default_page_two (tableRows : List Row) (request : Request)
    (table_name : String) (whereClause : Row → Bool)
    (sortBy : List Row → List Row) (page_size : Nat)
    (hnopage : request.query_params.lookup "page" = none)
    (hnext : page_size < (tableRows.filter whereClause).length) :
    (get_paged_response tableRows request table_name 1 true whereClause
        sortBy page_size).linkHeader
      = some ("<" ++ API_V1_PREFIX ++ "/" ++ table_name ++ "?" ++
          urlencode (request.query_params ++ [("page", "2")]) ++ ">; rel=\"next\"")
    ∧ (request.query_params ++ [("page", "2")]).lookup "page" = some "2" := by
  have h2 : (toString (1 + 1) : String) = "2" := rfl
  have happ : pyDictSet request.query_params "page" "2"
      = request.query_params ++ [("page", "2")] :=
    pyDictSet_eq_append _ _ _ hnopage
  constructor
  · simp only [get_paged_response]
    rw [if_pos ⟨by simpa using hnext, trivial⟩]
    rw [h2, happ]
    rfl
  · rw [lookup_append_of_none _ _ _ hnopage]
    rfl

/-- Witness for C9: a request whose only parameter is `page_size`, over a
three-row table with page size 2. -/
theorem paged_link_default_page_two_witness :
    (([("page_size", "2")] : List (String × String)).lookup "page" = none)
    ∧ 2 < (sampleRows3.filter (fun _ => true)).length
    ∧ ((get_paged_response sampleRows3 ⟨[("page_size", "2")]⟩ "orders" 1 true
          (fun _ => true) id 2).linkHeader
        = some ("<" ++ API_V1_PREFIX ++ "/" ++ "orders" ++ "?" ++
            urlencode ([("page_size", "2")] ++ [("page", "2")]) ++ ">; rel=\"next\"")
      ∧ (([("page_size", "2")] : List (String × String)) ++ [("page", "2")]).lookup "page"
          = some "2") :=
  ⟨rfl, by decide,
    paged_link_default_page_two sampleRows3 ⟨[("page_size", "2")]⟩ "orders"
      (fun _ => true) id 2 rfl (by decide)⟩

end JaffleShop
